import Mathlib

/-!
Verification of the paginated organizations listing.

The development shallowly embeds the two route modules of the repository:
`app/routes/organizations.tsx` (loader, table renderer, page component,
page-change handler) and `app/routes/resources.organizations.ts` (the
POST resource action).  JavaScript numbers that only ever hold integers
are modelled as `Int` (or `Nat` where the source guarantees
non-negativity), form values as `Option String` (with `none` for a
missing field), thrown exceptions as `Except String`, and the external
`executeQuery` collaborator as an explicit function argument so that the
queries an invocation actually runs can be observed.
-/

namespace Orgs

/-- `ITEMS_PER_PAGE` constant from `organizations.tsx`. -/
def ITEMS_PER_PAGE : Nat := 10

/-- Row type `OrganizationData` from `organizations.tsx`. -/
structure OrganizationData where
  organization_id : Int
  organization_name : String
  industry : String
  address : String
  phone : String
  email : String
  subscription_tier : String
  created_at : String
deriving Repr, DecidableEq

/-- Row type `OrganizationCountData` from `organizations.tsx`:
`COUNT(*)` is non-negative, so `total` is a `Nat`. -/
structure OrganizationCountData where
  total : Nat
deriving Repr, DecidableEq

/-- Result shape of the external `executeQuery` helper, as given by the
spec's contract for it: `{data: T[], isError: boolean}`. -/
structure QueryData (α : Type) where
  data : List α
  isError : Bool
deriving Repr, DecidableEq

/-- `totalPages` computation of `OrganizationsTable`
(`organizationsCount > 0 ? Math.ceil(organizationsCount / ITEMS_PER_PAGE) : 0`);
`Math.ceil` of the exact division is ceiling division on `Nat`. -/
def totalPages (organizationsCount : Nat) : Nat :=
  if organizationsCount > 0 then
    (organizationsCount + ITEMS_PER_PAGE - 1) / ITEMS_PER_PAGE
  else 0

/-- Value of a run of decimal digit characters, most significant first. -/
def jsDigitsVal (cs : List Char) : Nat :=
  cs.foldl (fun a c => a * 10 + (c.toNat - 48)) 0

/-- Reads the longest run of leading decimal digits; `none` models `NaN`
(no digit found). -/
def jsReadDigits (cs : List Char) : Option Int :=
  let ds := cs.takeWhile Char.isDigit
  if ds.isEmpty then none else some (jsDigitsVal ds : Nat)

/-- Model of JavaScript `parseInt` (default radix 10) on the decimal strings
this code receives: leading whitespace is skipped, an optional sign is read,
then the longest run of leading decimal digits; the result is `none` when no
digit is found, modelling `NaN`. -/
def jsParseInt (s : String) : Option Int :=
  match s.toList.dropWhile (fun c => c == ' ' || c == '\t' || c == '\n' || c == '\r') with
  | '-' :: rest => (jsReadDigits rest).map (fun n => -n)
  | '+' :: rest => jsReadDigits rest
  | cs => jsReadDigits cs

/-- Return shape of `loader` in `organizations.tsx`: either the success
object carrying both query results, or the failure object carrying only an
error string (no organizations and no count field, by construction). -/
inductive LoaderResult where
  | success (organizations : QueryData OrganizationData)
      (organizationsCount : QueryData OrganizationCountData)
  | failure (error : String)
deriving Repr, DecidableEq

/-- `loader` from `organizations.tsx`, as a function of the outcomes of its
two concurrent `executeQuery` calls; `Except.error` models a thrown
exception, whose message the catch block returns as `{error}`.
`Promise.all` rejects with the first rejection: when both calls reject, the
first in array order (the organizations query) settles first. -/
def loader (organizationsOutcome : Except String (QueryData OrganizationData))
    (countOutcome : Except String (QueryData OrganizationCountData)) : LoaderResult :=
  match organizationsOutcome, countOutcome with
  | .error e, _ => .failure e
  | .ok _, .error e => .failure e
  | .ok o, .ok c => .success o c

/-- `loaderData.organizationsCount.data?.[0]?.total || 0` from
`OrganizationsPage` (a missing first row yields 0; a zero total is falsy
and also yields 0). -/
def displayedCount (organizationsCount : QueryData OrganizationCountData) : Nat :=
  match organizationsCount.data.head? with
  | some row => row.total
  | none => 0

/-- Abstract render states of `OrganizationsPage`: the whole-page error
(loader failure), the error card the `WithErrorHandling` wrapper shows in
place of the table, or the table with its rows, total count, current page
and loading flag. -/
inductive PageRender where
  | errorPage (message : String)
  | tableErrorCard
  | table (rows : List OrganizationData) (organizationsCount : Nat)
      (currentPage : Int) (isLoading : Bool)
deriving Repr, DecidableEq

/-- Render of `OrganizationsPage` as a pure function of loader data, fetcher
data, and component state.  `'error' in loaderData` selects the whole-page
error; otherwise the wrapper receives `fetcher.data || loaderData.organizations`
and, per its contract, shows an error card when that query data carries
`isError` and otherwise renders the table from its rows. -/
def renderPage (loaderData : LoaderResult)
    (fetcherData : Option (QueryData OrganizationData))
    (currentPage : Int) (isSubmitting : Bool) : PageRender :=
  match loaderData with
  | .failure e => .errorPage e
  | .success organizations organizationsCount =>
    let queryData := fetcherData.getD organizations
    if queryData.isError then .tableErrorCard
    else .table queryData.data (displayedCount organizationsCount) currentPage isSubmitting

/-- The initial render: the fetcher holds no data yet, `currentPage` starts
at 1, and no submission is in flight. -/
def renderInitial (loaderData : LoaderResult) : PageRender :=
  renderPage loaderData none 1 false

/-- The total count a render displays, when it displays the table. -/
def countShown : PageRender → Option Nat
  | .table _ c _ _ => some c
  | _ => none

/-- The rows a render displays, when it displays the table. -/
def rowsShown : PageRender → Option (List OrganizationData)
  | .table rows _ _ _ => some rows
  | _ => none

/-- The payload `fetcher.submit` receives in `handlePageChange`: the two
form fields plus the submit options. -/
structure FetcherSubmission where
  limit : String
  offset : String
  method : String
  action : String
deriving Repr, DecidableEq

/-- Effect of `handlePageChange`: the optimistic `setCurrentPage` value and
the submission sent to the resource endpoint. -/
structure PageChangeResult where
  newCurrentPage : Int
  submission : FetcherSubmission
deriving Repr, DecidableEq

/-- `handlePageChange` from `OrganizationsPage`: sets the current page,
computes `offset = (page - 1) * ITEMS_PER_PAGE`, and submits both values as
decimal strings via POST to `/resources/organizations`. -/
def handlePageChange (page : Int) : PageChangeResult :=
  let offset : Int := (page - 1) * (ITEMS_PER_PAGE : Int)
  { newCurrentPage := page
    submission :=
      { limit := toString ITEMS_PER_PAGE
        offset := toString offset
        method := "post"
        action := "/resources/organizations" } }

/-- `disabled` prop of the Previous button:
`currentPage === 1 || isLoading`. -/
def prevDisabled (currentPage : Int) (isLoading : Bool) : Bool :=
  currentPage == 1 || isLoading

/-- `disabled` prop of the Next button:
`currentPage === totalPages || isLoading`. -/
def nextDisabled (currentPage : Int) (totalPagesShown : Nat) (isLoading : Bool) : Bool :=
  currentPage == (totalPagesShown : Int) || isLoading

/-- The parts of the incoming request the resource `action` inspects: the
HTTP method and the two form fields (`none` models a missing field, for
which `formData.get` returns `null`). -/
structure ActionRequest where
  method : String
  formLimit : Option String
  formOffset : Option String
deriving Repr, DecidableEq

/-- JSON bodies the resource `action` can produce. -/
inductive ResponseBody where
  | errorMsg (error : String)
  | queryResult (organizations : QueryData OrganizationData)
  | okData (data : List OrganizationData)
deriving Repr, DecidableEq

/-- A `Response.json` result: status code plus JSON body. -/
structure HttpResponse where
  status : Nat
  body : ResponseBody
deriving Repr, DecidableEq

/-- `parseInt(formData.get(name) as string) || dflt`: a missing field gives
`parseInt(null)` = `parseInt("null")` = `NaN`; `NaN` and `0` are both falsy
under `||`, so parse failure and a parsed zero alike fall back to `dflt`. -/
def parseFormInt (value : Option String) (dflt : Int) : Int :=
  match value with
  | none => dflt
  | some s =>
    match jsParseInt s with
    | none => dflt
    | some n => if n = 0 then dflt else n

/-- `action` from `resources.organizations.ts`.  The external `executeQuery`
is passed in as `exec`, which may throw (`Except.error`); the second
component of the result collects the parameter vectors of the queries the
invocation actually executed. -/
def action (req : ActionRequest)
    (exec : List String → Except String (QueryData OrganizationData)) :
    HttpResponse × List (List String) :=
  if req.method ≠ "POST" then
    ({ status := 405, body := .errorMsg "Method not allowed" }, [])
  else
    let limit := parseFormInt req.formLimit 10
    let offset := parseFormInt req.formOffset 0
    let params := [toString limit, toString offset]
    match exec params with
    | .error _ =>
      ({ status := 500, body := .errorMsg "Failed to fetch organizations" }, [params])
    | .ok organizations =>
      if organizations.isError then
        ({ status := 200, body := .queryResult organizations }, [params])
      else
        ({ status := 200, body := .okData organizations.data }, [params])

end Orgs

/-- Claim C1: with page size fixed at 10, the table renderer computes total pages
as the ceiling of T/10 for every non-negative total count T, and computes 0
when T = 0. -/
theorem totalPages_is_ceil (T : Nat) :
    (Orgs.totalPages T : Int) = ⌈(T : ℚ) / 10⌉ ∧ Orgs.totalPages 0 = 0 := by
  constructor
  · by_cases hT : T = 0
    · subst hT; simp [Orgs.totalPages]
    · have hpos : 0 < T := Nat.pos_of_ne_zero hT
      rw [show Orgs.totalPages T = (T + 9) / 10 by
        simp [Orgs.totalPages, Orgs.ITEMS_PER_PAGE, hpos]]
      have hn1 : (T : Int) ≤ (((T + 9) / 10 : Nat) : Int) * 10 := by omega
      have hn2 : ((((T + 9) / 10 : Nat) : Int) - 1) * 10 < (T : Int) := by omega
      symm
      rw [Int.ceil_eq_iff]
      constructor
      · rw [lt_div_iff₀ (by norm_num : (0:ℚ) < 10)]
        exact_mod_cast hn2
      · rw [div_le_iff₀ (by norm_num : (0:ℚ) < 10)]
        exact_mod_cast hn1
  · simp [Orgs.totalPages]

/-- Helper: a form value that is missing or fails to parse makes
`parseFormInt` return the default. -/
theorem parseFormInt_default (v : Option String) (dflt : Int)
    (h : v = none ∨ ∃ s, v = some s ∧ Orgs.jsParseInt s = none) :
    Orgs.parseFormInt v dflt = dflt := by
  rcases h with h | ⟨s, hs, hp⟩
  · simp [Orgs.parseFormInt, h]
  · simp [Orgs.parseFormInt, hs, hp]

/-- Helper: on a POST, the action runs exactly one query, whose parameters
are the parsed limit and offset rendered back to decimal strings. -/
theorem action_post_params (req : Orgs.ActionRequest)
    (exec : List String → Except String (Orgs.QueryData Orgs.OrganizationData))
    (hm : req.method = "POST") :
    (Orgs.action req exec).2 =
      [[toString (Orgs.parseFormInt req.formLimit 10),
        toString (Orgs.parseFormInt req.formOffset 0)]] := by
  cases hE : exec [toString (Orgs.parseFormInt req.formLimit 10),
      toString (Orgs.parseFormInt req.formOffset 0)] with
  | error e => simp [Orgs.action, hm, hE]
  | ok q => cases hq : q.isError <;> simp [Orgs.action, hm, hE, hq]

/-- Helper: decimal rendering of the default limit. -/
theorem toString_int_ten : toString (10 : Int) = "10" := rfl

/-- Helper: decimal rendering of the default offset. -/
theorem toString_int_zero : toString (0 : Int) = "0" := rfl

/-- Helper: the limit form value "0" parses but falls back to 10. -/
theorem parseFormInt_zero_string : Orgs.parseFormInt (some "0") 10 = 10 := by decide

/-- Claim C2: for every target page number p, the page-change handler
optimistically sets the page and submits a POST to /resources/organizations
with form fields limit = 10 and offset = (p - 1) * 10; in particular page 1
yields offset 0 and page 3 yields offset 20. -/
theorem handlePageChange_submits_offset (p : Int) :
    (Orgs.handlePageChange p).newCurrentPage = p ∧
    (Orgs.handlePageChange p).submission.limit = "10" ∧
    (Orgs.handlePageChange p).submission.offset = toString ((p - 1) * 10) ∧
    (Orgs.handlePageChange p).submission.method = "post" ∧
    (Orgs.handlePageChange p).submission.action = "/resources/organizations" ∧
    (Orgs.handlePageChange 1).submission.offset = "0" ∧
    (Orgs.handlePageChange 3).submission.offset = "20" :=
  ⟨rfl, rfl, rfl, rfl, rfl, by decide, by decide⟩

/-- Claim C3 counterexample: when the organizations query resolves with one
row and the count query resolves carrying isError = true (no throw), the
initial render is the full table showing that row with a count of 0 and no
error anywhere — data renders although the count query did not succeed,
refuting "either both queries succeed and the full page renders, or the
whole page shows a single error message". -/
theorem loader_partial_result_counterexample :
    (⟨[], true⟩ : Orgs.QueryData Orgs.OrganizationCountData).isError = true ∧
    Orgs.renderInitial
        (Orgs.loader
          (.ok ⟨[⟨1, "Acme", "Tech", "1 Main St", "555-0100", "a@acme.test", "basic",
            "2024-01-01"⟩], false⟩)
          (.ok ⟨[], true⟩)) =
      .table [⟨1, "Acme", "Tech", "1 Main St", "555-0100", "a@acme.test", "basic",
        "2024-01-01"⟩] 0 1 false :=
  ⟨rfl, rfl⟩

/-- Claim C3 (amended): on the initial load, partial-result handling exists
only at the exception level: if either query throws, the loader fails and
the whole page is a single error message rendering no rows; if neither
throws, the full page renders from both query results with the count
query's error flag never consulted, so a count query resolving with
isError = true still renders organization rows alongside a count of 0. -/
theorem loader_error_handling_shape
    (oq : Except String (Orgs.QueryData Orgs.OrganizationData))
    (cq : Except String (Orgs.QueryData Orgs.OrganizationCountData)) :
    ((oq.isOk = false ∨ cq.isOk = false) →
      ∃ e, Orgs.loader oq cq = .failure e ∧
        Orgs.renderInitial (Orgs.loader oq cq) = .errorPage e ∧
        Orgs.rowsShown (Orgs.renderInitial (Orgs.loader oq cq)) = none) ∧
    (∀ o c, oq = .ok o → cq = .ok c →
      Orgs.loader oq cq = .success o c ∧
      Orgs.renderInitial (Orgs.loader oq cq) =
        (if o.isError then .tableErrorCard
         else .table o.data (Orgs.displayedCount c) 1 false)) := by
  constructor
  · intro h
    cases oq with
    | error e => exact ⟨e, rfl, rfl, rfl⟩
    | ok o =>
      cases cq with
      | error e => exact ⟨e, rfl, rfl, rfl⟩
      | ok c => simp [Except.isOk, Except.toBool] at h
  · intro o c ho hc
    subst ho; subst hc
    refine ⟨rfl, ?_⟩
    cases h : o.isError <;>
      simp [Orgs.renderInitial, Orgs.renderPage, Orgs.loader, h]

/-- Witness for C3 at a concrete thrown outcome and a concrete pair of
resolved outcomes whose count result carries the error flag. -/
theorem loader_error_handling_shape_witness :
    (∃ e, Orgs.loader (.error "boom") (.ok ⟨[⟨25⟩], false⟩) = .failure e ∧
      Orgs.renderInitial (Orgs.loader (.error "boom") (.ok ⟨[⟨25⟩], false⟩)) =
        .errorPage e ∧
      Orgs.rowsShown
        (Orgs.renderInitial (Orgs.loader (.error "boom") (.ok ⟨[⟨25⟩], false⟩))) =
        none) ∧
    (Orgs.loader (.ok ⟨[], false⟩) (.ok ⟨[], true⟩) =
        .success ⟨[], false⟩ ⟨[], true⟩ ∧
      Orgs.renderInitial (Orgs.loader (.ok ⟨[], false⟩) (.ok ⟨[], true⟩)) =
        (if (⟨[], false⟩ : Orgs.QueryData Orgs.OrganizationData).isError
         then .tableErrorCard
         else .table [] (Orgs.displayedCount ⟨[], true⟩) 1 false)) :=
  ⟨(loader_error_handling_shape _ _).1 (Or.inl rfl),
   (loader_error_handling_shape _ _).2 _ _ rfl rfl⟩

/-- Claim C4 counterexample: while a page-change request is in flight, the
Previous button is disabled on page 2 even though the current page is not 1,
so "disabled exactly when the current page equals 1" fails as stated. -/
theorem prevDisabled_counterexample :
    ¬ (Orgs.prevDisabled 2 true = true ↔ (2 : Int) = 1) := by decide

/-- Claim C4 (amended): Previous is disabled exactly when the current page
equals 1 or a page-change request is in flight, and Next is disabled exactly
when the current page equals the total page count or a page-change request
is in flight. -/
theorem pagination_buttons_disabled_iff (p : Int) (tp : Nat) (l : Bool) :
    (Orgs.prevDisabled p l = true ↔ (p = 1 ∨ l = true)) ∧
    (Orgs.nextDisabled p tp l = true ↔ (p = (tp : Int) ∨ l = true)) := by
  constructor <;> simp [Orgs.prevDisabled, Orgs.nextDisabled]

/-- Claim C5: for every request whose method is not POST, the resource
action returns status 405 with body error "Method not allowed" and executes
no query. -/
theorem action_rejects_non_post (req : Orgs.ActionRequest)
    (exec : List String → Except String (Orgs.QueryData Orgs.OrganizationData))
    (h : req.method ≠ "POST") :
    Orgs.action req exec =
      ({ status := 405, body := .errorMsg "Method not allowed" }, []) := by
  simp [Orgs.action, h]

/-- Witness for C5 at a concrete GET request. -/
theorem action_rejects_non_post_witness :
    Orgs.action ⟨"GET", none, none⟩ (fun _ => .ok ⟨[], false⟩) =
      ({ status := 405, body := .errorMsg "Method not allowed" }, []) :=
  action_rejects_non_post _ _ (by decide)

/-- Claim C6: on a POST whose limit or offset form value is missing or fails
to parse, the action silently falls back to limit 10 and offset 0
respectively and still runs the query rather than rejecting the request. -/
theorem action_parse_failure_defaults (req : Orgs.ActionRequest)
    (exec : List String → Except String (Orgs.QueryData Orgs.OrganizationData))
    (hm : req.method = "POST") :
    ((req.formLimit = none ∨ ∃ s, req.formLimit = some s ∧ Orgs.jsParseInt s = none) →
      ∃ off, (Orgs.action req exec).2 = [["10", off]]) ∧
    ((req.formOffset = none ∨ ∃ s, req.formOffset = some s ∧ Orgs.jsParseInt s = none) →
      ∃ lim, (Orgs.action req exec).2 = [[lim, "0"]]) := by
  constructor
  · intro h
    refine ⟨toString (Orgs.parseFormInt req.formOffset 0), ?_⟩
    rw [action_post_params req exec hm, parseFormInt_default _ _ h, toString_int_ten]
  · intro h
    refine ⟨toString (Orgs.parseFormInt req.formLimit 10), ?_⟩
    rw [action_post_params req exec hm, parseFormInt_default _ _ h, toString_int_zero]

/-- Witness for C6 at a concrete request with a non-numeric limit and a
missing offset. -/
theorem action_parse_failure_defaults_witness :
    (∃ off, (Orgs.action ⟨"POST", some "abc", none⟩
        (fun _ => .ok ⟨[], false⟩)).2 = [["10", off]]) ∧
    (∃ lim, (Orgs.action ⟨"POST", some "abc", none⟩
        (fun _ => .ok ⟨[], false⟩)).2 = [[lim, "0"]]) :=
  ⟨(action_parse_failure_defaults _ _ rfl).1 (Or.inr ⟨"abc", rfl, by decide⟩),
   (action_parse_failure_defaults _ _ rfl).2 (Or.inl rfl)⟩

/-- Claim C7: if either initial query throws, the loader returns the failure
object carrying only the error message; if both succeed it returns the
success object carrying both query results. -/
theorem loader_result_shape
    (oq : Except String (Orgs.QueryData Orgs.OrganizationData))
    (cq : Except String (Orgs.QueryData Orgs.OrganizationCountData)) :
    (∀ e, oq = .error e → Orgs.loader oq cq = .failure e) ∧
    (∀ o e, oq = .ok o → cq = .error e → Orgs.loader oq cq = .failure e) ∧
    (∀ o c, oq = .ok o → cq = .ok c → Orgs.loader oq cq = .success o c) := by
  refine ⟨?_, ?_, ?_⟩ <;> intros <;> subst_vars <;> rfl

/-- Witness for C7 at concrete outcomes of the two queries. -/
theorem loader_result_shape_witness :
    Orgs.loader (.error "boom") (.ok ⟨[⟨25⟩], false⟩) = .failure "boom" ∧
    Orgs.loader (.ok ⟨[], false⟩) (.error "crash") = .failure "crash" ∧
    Orgs.loader (.ok ⟨[], false⟩) (.ok ⟨[⟨25⟩], false⟩) =
      .success ⟨[], false⟩ ⟨[⟨25⟩], false⟩ :=
  ⟨(loader_result_shape _ _).1 "boom" rfl,
   (loader_result_shape _ _).2.1 _ "crash" rfl rfl,
   (loader_result_shape _ _).2.2 _ _ rfl rfl⟩

/-- Claim C8: after any page change the fetcher's rows replace the displayed
rows, while the displayed total count stays the one computed from the
initial loader data; the fetcher response carries no count and none is
recomputed. -/
theorem count_stable_across_pagination
    (orgs fRes : Orgs.QueryData Orgs.OrganizationData)
    (cnt : Orgs.QueryData Orgs.OrganizationCountData)
    (p : Int) (l : Bool) (hf : fRes.isError = false) :
    Orgs.countShown (Orgs.renderPage (.success orgs cnt) (some fRes) p l) =
      some (Orgs.displayedCount cnt) ∧
    Orgs.rowsShown (Orgs.renderPage (.success orgs cnt) (some fRes) p l) =
      some fRes.data ∧
    (orgs.isError = false →
      Orgs.countShown (Orgs.renderInitial (.success orgs cnt)) =
        some (Orgs.displayedCount cnt)) := by
  constructor
  · simp [Orgs.renderPage, Orgs.countShown, hf]
  constructor
  · simp [Orgs.renderPage, Orgs.rowsShown, hf]
  · intro ho
    simp [Orgs.renderInitial, Orgs.renderPage, Orgs.countShown, ho]

/-- Witness for C8 at a concrete loader result and fetcher response. -/
theorem count_stable_across_pagination_witness :
    Orgs.countShown (Orgs.renderPage (.success ⟨[], false⟩ ⟨[⟨25⟩], false⟩)
        (some ⟨[], false⟩) 2 false) = some 25 ∧
    Orgs.rowsShown (Orgs.renderPage (.success ⟨[], false⟩ ⟨[⟨25⟩], false⟩)
        (some ⟨[], false⟩) 2 false) = some [] ∧
    Orgs.countShown (Orgs.renderInitial (.success ⟨[], false⟩ ⟨[⟨25⟩], false⟩)) =
      some 25 := by
  have h := count_stable_across_pagination ⟨[], false⟩ ⟨[], false⟩ ⟨[⟨25⟩], false⟩ 2 false rfl
  exact ⟨h.1, h.2.1, h.2.2 rfl⟩

/-- Claim C9: a POST whose limit form value is the numeric string "0" uses
limit 10: "0" parses to 0 successfully, but the fallback fires on any falsy
parse result, so a parsed zero is treated like a parse failure. -/
theorem action_zero_limit_falls_back (req : Orgs.ActionRequest)
    (exec : List String → Except String (Orgs.QueryData Orgs.OrganizationData))
    (hm : req.method = "POST") (hl : req.formLimit = some "0") :
    Orgs.jsParseInt "0" = some 0 ∧
    ∃ off, (Orgs.action req exec).2 = [["10", off]] := by
  refine ⟨by decide, toString (Orgs.parseFormInt req.formOffset 0), ?_⟩
  rw [action_post_params req exec hm, hl, parseFormInt_zero_string, toString_int_ten]

/-- Witness for C9 at a concrete request with limit "0". -/
theorem action_zero_limit_falls_back_witness :
    Orgs.jsParseInt "0" = some 0 ∧
    ∃ off, (Orgs.action ⟨"POST", some "0", some "35"⟩
        (fun _ => .ok ⟨[], false⟩)).2 = [["10", off]] :=
  action_zero_limit_falls_back _ _ rfl rfl

/-- Claim C10: the action performs no range validation: limit and offset
form values parsing to nonzero integers, negative values included, are
forwarded unchanged as decimal string parameters to the paginated query. -/
theorem action_forwards_parsed_values (req : Orgs.ActionRequest)
    (exec : List String → Except String (Orgs.QueryData Orgs.OrganizationData))
    (s t : String) (n m : Int) (hm : req.method = "POST")
    (hls : req.formLimit = some s) (hln : Orgs.jsParseInt s = some n) (hn : n ≠ 0)
    (hos : req.formOffset = some t) (hom : Orgs.jsParseInt t = some m) (hm0 : m ≠ 0) :
    (Orgs.action req exec).2 = [[toString n, toString m]] := by
  rw [action_post_params req exec hm, hls, hos]
  simp [Orgs.parseFormInt, hln, hom, hn, hm0]

/-- Witness for C10 at a concrete request with negative limit and offset. -/
theorem action_forwards_parsed_values_witness :
    Orgs.jsParseInt "-5" = some (-5) ∧
    (Orgs.action ⟨"POST", some "-5", some "-20"⟩
      (fun _ => .ok ⟨[], false⟩)).2 = [["-5", "-20"]] := by
  refine ⟨by decide, ?_⟩
  rw [action_forwards_parsed_values _ _ "-5" "-20" (-5) (-20) rfl rfl
    (by decide) (by decide) rfl (by decide) (by decide)]
  decide
